import Mathlib

/-!
Verification of the identifier normalizer/validator and the HTTP handlers
of the herbal-remedy lookup service (`main.py`).

The embedding models Python strings as `List Char`.  The regex classes
`\w` and `\s`, `str.lower()` and `str.strip()` are modelled on their ASCII
fragments (the Unicode extensions only enlarge the accepted character set
uniformly and no property below depends on non-ASCII input).
-/

/-- Characters stripped by `str.strip()` and matched by the regex class
backslash-s, ASCII fragment: space, tab, newline, carriage return,
vertical tab, form feed. -/
def isPySpace (c : Char) : Bool :=
  decide (c.toNat = 32 ∨ c.toNat = 9 ∨ c.toNat = 10 ∨ c.toNat = 13 ∨
    c.toNat = 11 ∨ c.toNat = 12)

/-- The separator characters replaced by spaces in
`re.sub(r'[_-]', ' ', name)`: underscore (95) and hyphen (45). -/
def isSeparator (c : Char) : Bool :=
  decide (c.toNat = 95 ∨ c.toNat = 45)

/-- The regex class backslash-w, ASCII fragment: letters, digits and
underscore. -/
def isWordChar (c : Char) : Bool :=
  decide ((65 ≤ c.toNat ∧ c.toNat ≤ 90) ∨ (97 ≤ c.toNat ∧ c.toNat ≤ 122) ∨
    (48 ≤ c.toNat ∧ c.toNat ≤ 57) ∨ c.toNat = 95)

/-- One character of the validation pattern `[\w\s-]`. -/
def isAllowedChar (c : Char) : Bool :=
  isWordChar c || isPySpace c || decide (c.toNat = 45)

/-- `re.sub(r'[_-]', ' ', name)`: each separator occurrence becomes one
space. -/
def subSeparators (l : List Char) : List Char :=
  l.map fun c => if isSeparator c then ' ' else c

/-- Left part of `str.strip()`. -/
def lstripPy (l : List Char) : List Char :=
  l.dropWhile isPySpace

/-- Right part of `str.strip()`. -/
def rstripPy (l : List Char) : List Char :=
  (l.reverse.dropWhile isPySpace).reverse

/-- `str.strip()`: removes leading and trailing whitespace. -/
def stripPy (l : List Char) : List Char :=
  rstripPy (lstripPy l)

/-- `str.lower()`, ASCII fragment, applied characterwise. -/
def lowerPy (l : List Char) : List Char :=
  l.map Char.toLower

/-- `re.sub(r'[_-]', ' ', name).strip().lower()` — the `clean_name`
computed by `validate_disease_name`. -/
def cleanName (l : List Char) : List Char :=
  lowerPy (stripPy (subSeparators l))

/-- `re.match(r'^[\w\s-]+$', clean_name)` as a Boolean: the string is
non-empty and every character is in the allowed class.  (The input has
been stripped, so the end-of-string anchor subtlety with a trailing
newline cannot arise.) -/
def matchesNamePattern (l : List Char) : Bool :=
  !l.isEmpty && l.all isAllowedChar

deriving instance DecidableEq for Except

/-- `fastapi.HTTPException`: an HTTP status code plus a detail message. -/
structure HTTPException where
  status : Nat
  detail : List Char
deriving DecidableEq

/-- The exception raised for `Invalid characters in disease name`. -/
def invalidCharactersExc : HTTPException :=
  ⟨400, "Invalid characters in disease name".toList⟩

/-- The exception raised for `Disease name too long (max 50 chars)`. -/
def tooLongExc : HTTPException :=
  ⟨400, "Disease name too long (max 50 chars)".toList⟩

/-- `validate_disease_name` from `main.py`: sanitize and validate disease
input.  Raising an `HTTPException` is modelled as returning it in the
`Except` error branch. -/
def validate_disease_name (name : List Char) : Except HTTPException (List Char) :=
  let clean_name := cleanName name
  if !matchesNamePattern clean_name then
    .error invalidCharactersExc
  else if clean_name.length > 50 then
    .error tooLongExc
  else
    .ok clean_name

/-- The ASCII apostrophe used in the 404 detail message. -/
def squote : Char := Char.ofNat 39

/-- One row of the `diseases` table as returned by
`supabase.table("diseases").select("*")`: the fields the handler reads.
`description` is optional because the handler defaults it with
`.get("description", "")`. -/
structure DiseaseRecord where
  id : Nat
  name : List Char
  description : Option (List Char)
deriving DecidableEq

/-- One row of the `herbal_remedies` select
`herb_name, preparation, dosage, safety_notes`.  `safety_notes` is
optional (nullable column); the prompt builder tests its truthiness. -/
structure RemedyRecord where
  herb_name : List Char
  preparation : List Char
  dosage : List Char
  safety_notes : Option (List Char)
deriving DecidableEq

/-- A failure of the record store (an exception raised by a supabase
call), carrying its message. -/
structure StoreErr where
  msg : List Char
deriving DecidableEq

/-- The record-store boundary: the two queries `get_remedies` issues.
`diseasesByName` abstracts `.ilike("name", clean).execute().data`
(case-insensitive exact match) and `remediesByDiseaseId` abstracts
`.eq("disease_id", id).execute().data`. -/
structure Store where
  diseasesByName : List Char → Except StoreErr (List DiseaseRecord)
  remediesByDiseaseId : Nat → Except StoreErr (List RemedyRecord)

/-- An error from the text-summarizer collaborator
(`cohere.CohereError`), carrying its message. -/
structure CohereError where
  msg : List Char
deriving DecidableEq

/-- One generation returned by the summarizer
(`response.generations[i]`). -/
structure Generation where
  text : List Char
deriving DecidableEq

/-- One observable call to a downstream collaborator, recorded in order. -/
inductive CollabCall where
  | diseaseLookup (key : List Char)
  | remedyLookup (diseaseId : Nat)
  | summarizerCall (prompt : List Char)
deriving DecidableEq

/-- The successful JSON payload of `GET /remedies/{disease}`. -/
structure RemediesResponse where
  disease : List Char
  description : List Char
  remedies : List RemedyRecord
deriving DecidableEq

/-- The successful JSON payload of `GET /cohere-summary/{disease}`. -/
structure SummaryResponse where
  summary : List Char
  original_data : RemediesResponse
deriving DecidableEq

/-- Detail message of the 404: `Disease '{clean_disease}' not found`. -/
def notFoundDetail (clean : List Char) : List Char :=
  "Disease ".toList ++ squote :: clean ++ squote :: " not found".toList

/-- Detail message of the 500 raised when a store call fails:
`Database error: {e}`. -/
def databaseErrorDetail (e : StoreErr) : List Char :=
  "Database error: ".toList ++ e.msg

/-- The handler of `GET /remedies/{disease}`.  Raised `HTTPException`s
are modelled as the `Except` error branch (the `except HTTPException`
clause re-raises them unchanged, and any store exception becomes a 500).
The second component records every store call that was executed, in
order. -/
def get_remedies (st : Store) (disease : List Char) :
    Except HTTPException RemediesResponse × List CollabCall :=
  match validate_disease_name disease with
  | .error he => (.error he, [])
  | .ok clean_disease =>
    match st.diseasesByName clean_disease with
    | .error e =>
      (.error ⟨500, databaseErrorDetail e⟩, [.diseaseLookup clean_disease])
    | .ok [] =>
      (.error ⟨404, notFoundDetail clean_disease⟩, [.diseaseLookup clean_disease])
    | .ok (d0 :: _) =>
      match st.remediesByDiseaseId d0.id with
      | .error e =>
        (.error ⟨500, databaseErrorDetail e⟩,
          [.diseaseLookup clean_disease, .remedyLookup d0.id])
      | .ok rs =>
        (.ok ⟨clean_disease, d0.description.getD [], rs⟩,
          [.diseaseLookup clean_disease, .remedyLookup d0.id])

/-- One remedy bullet of the prompt:
`- **{herb_name}**: {preparation} ({dosage})` with an indented
`Safety Notes` line appended when `safety_notes` is truthy (neither
null nor the empty string). -/
def remedyLine (r : RemedyRecord) : List Char :=
  let line := "- **".toList ++ r.herb_name ++ "**: ".toList ++
    r.preparation ++ " (".toList ++ r.dosage ++ ")".toList
  match r.safety_notes with
  | some notes =>
    if notes.isEmpty then line
    else line ++ "\n  - Safety Notes: ".toList ++ notes
  | none => line

/-- The prompt assembled by `generate_summary` from the remedies
payload (the triple-quoted f-string, reproduced verbatim including the
whitespace-only second line). -/
def buildPrompt (rd : RemediesResponse) : List Char :=
  "Generate a comprehensive herbal remedy summary for ".toList ++
  rd.disease ++ " using this data:\n        \n**Description**: ".toList ++
  rd.description ++ "\n\n**Recommended Herbal Remedies**:\n".toList ++
  List.intercalate "\n".toList (rd.remedies.map remedyLine) ++
  "\n\nInclude key safety considerations and format the response using markdown with clear sections.".toList

/-- Detail message of the 503 raised on a summarizer failure:
`Cohere API error: {ce}`. -/
def cohereErrorDetail (ce : CohereError) : List Char :=
  "Cohere API error: ".toList ++ ce.msg

/-- The handler of `GET /cohere-summary/{disease}`.  The summarizer is
passed as a function (its generation parameters — model, max tokens,
temperature, presence penalty — are fixed configuration absorbed into
it).  An `HTTPException` raised by `get_remedies` or by the empty-result
check propagates unchanged; a `cohere.CohereError` becomes a 503. -/
def generate_summary (st : Store)
    (cohereGenerate : List Char → Except CohereError (List Generation))
    (disease : List Char) :
    Except HTTPException SummaryResponse × List CollabCall :=
  match get_remedies st disease with
  | (.error he, tr) => (.error he, tr)
  | (.ok rd, tr) =>
    let prompt := buildPrompt rd
    match cohereGenerate prompt with
    | .error ce =>
      (.error ⟨503, cohereErrorDetail ce⟩, tr ++ [.summarizerCall prompt])
    | .ok [] =>
      (.error ⟨500, "Empty response from Cohere API".toList⟩,
        tr ++ [.summarizerCall prompt])
    | .ok (g0 :: _) =>
      (.ok ⟨g0.text, rd⟩, tr ++ [.summarizerCall prompt])

/-- A store with no records and no failures. -/
def emptyStore : Store :=
  ⟨fun _ => .ok [], fun _ => .ok []⟩

/-- A ginger-tea remedy row used in concrete runs. -/
def gingerRemedy : RemedyRecord :=
  ⟨"ginger".toList, "tea".toList, "twice daily".toList, none⟩

/-- A store holding one disease record with one remedy. -/
def oneDiseaseStore : Store :=
  ⟨fun _ => .ok [⟨1, "common cold".toList, some "a viral infection".toList⟩],
   fun _ => .ok [gingerRemedy]⟩

/-- The remedies payload `get_remedies` produces from
`oneDiseaseStore` for the key `common cold`. -/
def commonColdResponse : RemediesResponse :=
  ⟨"common cold".toList, "a viral infection".toList, [gingerRemedy]⟩

/-- A summarizer that always fails. -/
def downSummarizer : List Char → Except CohereError (List Generation) :=
  fun _ => .error ⟨"service unavailable".toList⟩

/-- A summarizer that returns zero generations. -/
def emptySummarizer : List Char → Except CohereError (List Generation) :=
  fun _ => .ok []

/-- A summarizer that returns one generation. -/
def okSummarizer : List Char → Except CohereError (List Generation) :=
  fun _ => .ok [⟨"use ginger tea".toList⟩]

/-! Support lemmas about the character-level operations. -/

theorem toNat_ofNat_of_valid {n : Nat} (h : n.isValidChar) :
    (Char.ofNat n).toNat = n := by
  rw [Char.ofNat, dif_pos h]
  rfl

theorem toLower_eq_self {c : Char} (h : ¬(c.toNat ≥ 65 ∧ c.toNat ≤ 90)) :
    Char.toLower c = c := by
  simp only [Char.toLower]
  exact if_neg h

theorem toLower_toNat_of_upper {c : Char} (h : c.toNat ≥ 65 ∧ c.toNat ≤ 90) :
    (Char.toLower c).toNat = c.toNat + 32 := by
  simp only [Char.toLower]
  rw [if_pos h]
  exact toNat_ofNat_of_valid (Or.inl (by omega))

theorem toLower_toLower (c : Char) :
    Char.toLower (Char.toLower c) = Char.toLower c := by
  by_cases h : c.toNat ≥ 65 ∧ c.toNat ≤ 90
  · have h2 := toLower_toNat_of_upper h
    apply toLower_eq_self
    omega
  · rw [toLower_eq_self h]
    exact toLower_eq_self h

theorem isPySpace_toLower (c : Char) :
    isPySpace (Char.toLower c) = isPySpace c := by
  by_cases h : c.toNat ≥ 65 ∧ c.toNat ≤ 90
  · have h2 := toLower_toNat_of_upper h
    simp only [isPySpace, decide_eq_decide]
    omega
  · rw [toLower_eq_self h]

theorem isSeparator_toLower {c : Char} (h : isSeparator c = false) :
    isSeparator (Char.toLower c) = false := by
  by_cases hu : c.toNat ≥ 65 ∧ c.toNat ≤ 90
  · have h2 := toLower_toNat_of_upper hu
    simp only [isSeparator, decide_eq_false_iff_not]
    omega
  · rw [toLower_eq_self hu]
    exact h

/-! Support lemmas about stripping and mapping. -/

theorem dropWhile_dropWhile (p : Char → Bool) (l : List Char) :
    (l.dropWhile p).dropWhile p = l.dropWhile p := by
  induction l with
  | nil => rfl
  | cons a t ih =>
    by_cases h : p a = true
    · simp [List.dropWhile_cons, h, ih]
    · simp [List.dropWhile_cons, h]

theorem exists_append_dropWhile {α : Type} (p : α → Bool) (l : List α) :
    ∃ r, r ++ l.dropWhile p = l := by
  induction l with
  | nil => exact ⟨[], rfl⟩
  | cons a t ih =>
    by_cases h : p a = true
    · obtain ⟨r, hr⟩ := ih
      exact ⟨a :: r, by simp [List.dropWhile_cons, h, hr]⟩
    · exact ⟨[], by simp [List.dropWhile_cons, h]⟩

theorem lstripPy_nil_or_head (l : List Char) :
    lstripPy l = [] ∨ ∃ a t, lstripPy l = a :: t ∧ isPySpace a = false := by
  induction l with
  | nil => exact .inl rfl
  | cons a t ih =>
    by_cases h : isPySpace a = true
    · simpa [lstripPy, List.dropWhile_cons, h] using ih
    · refine .inr ⟨a, t, ?_, ?_⟩
      · simp [lstripPy, List.dropWhile_cons, h]
      · simpa using h

theorem exists_rstripPy_append (l : List Char) : ∃ r, rstripPy l ++ r = l := by
  obtain ⟨r, hr⟩ := exists_append_dropWhile isPySpace l.reverse
  refine ⟨r.reverse, ?_⟩
  have h2 := congrArg List.reverse hr
  simpa [rstripPy, List.reverse_append] using h2

theorem lstripPy_rstripPy_lstripPy (l : List Char) :
    lstripPy (rstripPy (lstripPy l)) = rstripPy (lstripPy l) := by
  rcases lstripPy_nil_or_head l with h | ⟨a, t, h, ha⟩
  · rw [h]
    rfl
  · obtain ⟨r, hr⟩ := exists_rstripPy_append (lstripPy l)
    cases hs : rstripPy (lstripPy l) with
    | nil => rfl
    | cons b u =>
      rw [hs, h] at hr
      simp only [List.cons_append, List.cons.injEq] at hr
      rw [hr.1]
      simp [lstripPy, List.dropWhile_cons, ha]

theorem rstripPy_rstripPy (l : List Char) : rstripPy (rstripPy l) = rstripPy l := by
  simp only [rstripPy, List.reverse_reverse, dropWhile_dropWhile]

theorem stripPy_stripPy (l : List Char) : stripPy (stripPy l) = stripPy l := by
  unfold stripPy
  rw [lstripPy_rstripPy_lstripPy, rstripPy_rstripPy]

theorem dropWhile_map_of_pres {f : Char → Char} {p : Char → Bool}
    (hf : ∀ c, p (f c) = p c) (l : List Char) :
    (l.map f).dropWhile p = (l.dropWhile p).map f := by
  induction l with
  | nil => rfl
  | cons a t ih =>
    by_cases h : p a = true
    · simp [List.dropWhile_cons, hf, h, ih]
    · simp [List.dropWhile_cons, hf, h]

theorem stripPy_lowerPy (l : List Char) :
    stripPy (lowerPy l) = lowerPy (stripPy l) := by
  simp only [stripPy, lstripPy, rstripPy, lowerPy]
  rw [dropWhile_map_of_pres isPySpace_toLower, ← List.map_reverse,
    dropWhile_map_of_pres isPySpace_toLower, List.map_reverse]

theorem lowerPy_lowerPy (l : List Char) : lowerPy (lowerPy l) = lowerPy l := by
  simp only [lowerPy, List.map_map]
  exact List.map_congr_left fun a _ => toLower_toLower a

theorem mem_of_mem_dropWhile {α : Type} {a : α} {p : α → Bool} {l : List α}
    (h : a ∈ l.dropWhile p) : a ∈ l := by
  obtain ⟨r, hr⟩ := exists_append_dropWhile p l
  rw [← hr]
  exact List.mem_append.2 (.inr h)

theorem mem_of_mem_stripPy {a : Char} {l : List Char} (h : a ∈ stripPy l) :
    a ∈ l := by
  simp only [stripPy, rstripPy, lstripPy, List.mem_reverse] at h
  exact mem_of_mem_dropWhile (List.mem_reverse.1 (mem_of_mem_dropWhile h))

theorem subSeparators_no_sep (l : List Char) :
    ∀ c ∈ subSeparators l, isSeparator c = false := by
  intro c hc
  simp only [subSeparators, List.mem_map] at hc
  obtain ⟨b, _, hb⟩ := hc
  subst hb
  by_cases h : isSeparator b = true
  · simp only [h, if_true]
    decide
  · simp only [Bool.not_eq_true] at h
    simp [h]

theorem subSeparators_eq_self {l : List Char} (h : ∀ c ∈ l, isSeparator c = false) :
    subSeparators l = l := by
  unfold subSeparators
  calc l.map (fun c => if isSeparator c then ' ' else c)
      = l.map (fun c => c) := List.map_congr_left (fun c hc => by simp [h c hc])
    _ = l := List.map_id' l

theorem cleanName_no_sep (l : List Char) :
    ∀ c ∈ cleanName l, isSeparator c = false := by
  intro c hc
  simp only [cleanName, lowerPy, List.mem_map] at hc
  obtain ⟨b, hb, rfl⟩ := hc
  exact isSeparator_toLower (subSeparators_no_sep l b (mem_of_mem_stripPy hb))

theorem stripPy_cleanName (l : List Char) : stripPy (cleanName l) = cleanName l := by
  show stripPy (lowerPy (stripPy (subSeparators l))) = cleanName l
  rw [stripPy_lowerPy, stripPy_stripPy]
  rfl

theorem lowerPy_cleanName (l : List Char) : lowerPy (cleanName l) = cleanName l :=
  lowerPy_lowerPy (stripPy (subSeparators l))

theorem cleanName_cleanName (l : List Char) :
    cleanName (cleanName l) = cleanName l := by
  show lowerPy (stripPy (subSeparators (cleanName l))) = cleanName l
  rw [subSeparators_eq_self (cleanName_no_sep l), stripPy_cleanName,
    lowerPy_cleanName]

/-! Characterization of `validate_disease_name`. -/

theorem validate_ok_of {s : List Char}
    (h1 : matchesNamePattern (cleanName s) = true)
    (h2 : (cleanName s).length ≤ 50) :
    validate_disease_name s = .ok (cleanName s) := by
  simp [validate_disease_name, h1, Nat.not_lt.2 h2]

theorem validate_ok_elim {s n : List Char}
    (h : validate_disease_name s = .ok n) :
    matchesNamePattern (cleanName s) = true ∧ (cleanName s).length ≤ 50 ∧
      n = cleanName s := by
  simp only [validate_disease_name] at h
  split at h
  · exact absurd h (by simp)
  · split at h
    · exact absurd h (by simp)
    · rename_i hc hl
      refine ⟨?_, by omega, (Except.ok.inj h).symm⟩
      simpa using hc

theorem validate_error_invalid_of {s : List Char}
    (h : matchesNamePattern (cleanName s) = false) :
    validate_disease_name s = .error invalidCharactersExc := by
  simp [validate_disease_name, h]

theorem validate_error_toolong_of {s : List Char}
    (h1 : matchesNamePattern (cleanName s) = true)
    (h2 : (cleanName s).length > 50) :
    validate_disease_name s = .error tooLongExc := by
  simp [validate_disease_name, h1, h2]

theorem validate_error_elim {s : List Char} {he : HTTPException}
    (h : validate_disease_name s = .error he) :
    he = invalidCharactersExc ∨ he = tooLongExc := by
  simp only [validate_disease_name] at h
  split at h
  · exact .inl (Except.error.inj h).symm
  · split at h
    · exact .inr (Except.error.inj h).symm
    · exact absurd h (by simp)

/-! Claim theorems about the normalizer. -/

/-- C1: for every raw string whose transform (replace each occurrence of
underscore or hyphen with a space, strip leading/trailing whitespace,
lowercase) yields a non-empty string of length at most 50 composed only
of characters of the allowed class, `validate_disease_name` returns
exactly that transformed string; in particular `Common_Cold` maps to
`common cold` and `  Migraine  ` maps to `migraine`. -/
theorem C1_normalize_returns_transform :
    (∀ s : List Char, cleanName s ≠ [] →
      (∀ c ∈ cleanName s, isAllowedChar c = true) →
      (cleanName s).length ≤ 50 →
      validate_disease_name s = .ok (cleanName s)) ∧
    validate_disease_name "Common_Cold".toList = .ok "common cold".toList ∧
    validate_disease_name "  Migraine  ".toList = .ok "migraine".toList := by
  refine ⟨?_, by decide, by decide⟩
  intro s h1 h2 h3
  apply validate_ok_of _ h3
  simp only [matchesNamePattern, Bool.and_eq_true, Bool.not_eq_true',
    List.isEmpty_eq_false, List.all_eq_true]
  exact ⟨h1, h2⟩

/-- Witness for C1 at the concrete input `flu`. -/
theorem C1_normalize_returns_transform_witness :
    validate_disease_name "flu".toList = .ok (cleanName "flu".toList) :=
  C1_normalize_returns_transform.1 "flu".toList (by decide) (by decide) (by decide)

/-- C2 counterexample: the claim says a maximal run of separators
contributes exactly one space, but `a__b` normalizes to `a` followed by
two adjacent spaces and `b`, not to a single interior space. -/
theorem C2_run_collapse_counterexample :
    validate_disease_name ('a' :: '_' :: '_' :: 'b' :: []) =
      .ok ('a' :: ' ' :: ' ' :: 'b' :: []) ∧
    ('a' :: ' ' :: ' ' :: 'b' :: []) ≠ ('a' :: ' ' :: 'b' :: []) := by
  decide

/-- C2 amended: each separator occurrence is replaced by one space of
its own — the substitution preserves length, and the number of spaces in
its output equals the number of spaces plus the number of separators of
the input, so a maximal run of k separators contributes exactly k
spaces, never one collapsed space; `a__b` thus normalizes with two
adjacent interior spaces. -/
theorem C2_each_separator_becomes_one_space :
    (∀ l : List Char, (subSeparators l).length = l.length ∧
      (subSeparators l).count ' ' = l.count ' ' + l.countP isSeparator) ∧
    cleanName ('a' :: '_' :: '_' :: 'b' :: []) =
      ('a' :: ' ' :: ' ' :: 'b' :: []) := by
  refine ⟨?_, by decide⟩
  intro l
  refine ⟨by simp [subSeparators], ?_⟩
  induction l with
  | nil => rfl
  | cons a t ih =>
    simp only [subSeparators, List.map_cons, List.count_cons, List.countP_cons] at *
    by_cases h : isSeparator a = true
    · have ha : (a == ' ') = false := by
        cases hb : a == ' '
        · rfl
        · rw [beq_iff_eq.1 hb] at h
          exact absurd h (by decide)
      simp only [h, if_true, ih, ha]
      simp
      omega
    · simp only [Bool.not_eq_true] at h
      simp only [h, if_false, List.count_cons, ih]
      simp
      omega

/-- C3: every raw string whose normalized form is empty — the empty
string, whitespace-only strings, separator-only strings such as `___` —
is rejected with the 400 invalid-characters error, and a successful
validation never returns the empty string as a key. -/
theorem C3_empty_normalization_rejected :
    (∀ s : List Char, cleanName s = [] →
      validate_disease_name s = .error invalidCharactersExc) ∧
    (∀ s n : List Char, validate_disease_name s = .ok n → n ≠ []) ∧
    validate_disease_name "___".toList = .error invalidCharactersExc ∧
    validate_disease_name [] = .error invalidCharactersExc ∧
    validate_disease_name "   ".toList = .error invalidCharactersExc := by
  refine ⟨?_, ?_, by decide, by decide, by decide⟩
  · intro s h
    apply validate_error_invalid_of
    rw [h]
    rfl
  · intro s n h
    obtain ⟨h1, _, rfl⟩ := validate_ok_elim h
    intro he
    rw [he] at h1
    exact absurd h1 (by decide)

/-- Witness for C3 at the separator-only input `___`. -/
theorem C3_empty_normalization_rejected_witness :
    validate_disease_name "___".toList = .error invalidCharactersExc :=
  C3_empty_normalization_rejected.1 "___".toList (by decide)

/-- C4: a normalized form containing any disallowed character is
rejected with the invalid-characters error regardless of its length —
the character check precedes the length check, so an input whose
normalized form is both invalid and longer than 50 characters (such as
60 exclamation marks) is rejected as invalid characters, not as too
long. -/
theorem C4_invalid_characters_rejected :
    (∀ s : List Char, (∃ c, c ∈ cleanName s ∧ isAllowedChar c = false) →
      validate_disease_name s = .error invalidCharactersExc) ∧
    validate_disease_name "flu!!!".toList = .error invalidCharactersExc ∧
    validate_disease_name (List.replicate 60 '!') = .error invalidCharactersExc := by
  refine ⟨?_, by decide, by decide⟩
  rintro s ⟨c, hc, hbad⟩
  apply validate_error_invalid_of
  simp only [matchesNamePattern, Bool.and_eq_false_iff, List.all_eq_false]
  exact .inr ⟨c, hc, by simp [hbad]⟩

/-- Witness for C4 at the concrete input `flu!!!`. -/
theorem C4_invalid_characters_rejected_witness :
    validate_disease_name "flu!!!".toList = .error invalidCharactersExc :=
  C4_invalid_characters_rejected.1 "flu!!!".toList (by decide)

/-- C5: a normalized form made only of allowed characters but strictly
longer than 50 characters is rejected with the too-long error; a string
of 51 letters `a` is rejected with it while a string of exactly 50 is
accepted. -/
theorem C5_too_long_rejected :
    (∀ s : List Char, matchesNamePattern (cleanName s) = true →
      (cleanName s).length > 50 →
      validate_disease_name s = .error tooLongExc) ∧
    validate_disease_name (List.replicate 51 'a') = .error tooLongExc ∧
    validate_disease_name (List.replicate 50 'a') = .ok (List.replicate 50 'a') :=
  ⟨fun _ h1 h2 => validate_error_toolong_of h1 h2, by decide, by decide⟩

/-- Witness for C5 at the 51-character input. -/
theorem C5_too_long_rejected_witness :
    validate_disease_name (List.replicate 51 'a') = .error tooLongExc :=
  C5_too_long_rejected.1 (List.replicate 51 'a') (by decide) (by decide)

/-- C6: `validate_disease_name` is idempotent on its own valid outputs —
whenever it accepts `s` returning `n`, it also accepts `n` and returns
`n` unchanged. -/
theorem C6_normalize_idempotent :
    ∀ s n : List Char, validate_disease_name s = .ok n →
      validate_disease_name n = .ok n := by
  intro s n h
  obtain ⟨h1, h2, rfl⟩ := validate_ok_elim h
  have h3 : validate_disease_name (cleanName s) = .ok (cleanName (cleanName s)) :=
    validate_ok_of (by rw [cleanName_cleanName]; exact h1)
      (by rw [cleanName_cleanName]; exact h2)
  rwa [cleanName_cleanName] at h3

/-- Witness for C6 at `Common_Cold`. -/
theorem C6_normalize_idempotent_witness :
    validate_disease_name "common cold".toList = .ok "common cold".toList :=
  C6_normalize_idempotent "Common_Cold".toList "common cold".toList (by decide)

/-- C10: an accepted normalized identifier never contains an underscore
or a hyphen — separator substitution runs before the character-class
check — and every one of its characters is a non-underscore word
character or whitespace. -/
theorem C10_no_separators_in_output :
    ∀ s n : List Char, validate_disease_name s = .ok n →
      ¬('_' ∈ n) ∧ ¬('-' ∈ n) ∧
      ∀ c ∈ n, (isWordChar c || isPySpace c) = true ∧ c ≠ '_' := by
  intro s n h
  obtain ⟨h1, _, rfl⟩ := validate_ok_elim h
  have hsep := cleanName_no_sep s
  simp only [matchesNamePattern, Bool.and_eq_true, List.all_eq_true] at h1
  refine ⟨fun hm => ?_, fun hm => ?_, fun c hc => ?_⟩
  · exact absurd (hsep _ hm) (by decide)
  · exact absurd (hsep _ hm) (by decide)
  · have hal := h1.2 c hc
    have hns := hsep c hc
    simp only [isAllowedChar, Bool.or_eq_true, decide_eq_true_eq] at hal
    simp only [isSeparator, decide_eq_false_iff_not] at hns
    refine ⟨?_, ?_⟩
    · rcases hal with (hw | hs2) | h45
      · simp [hw]
      · simp [hs2]
      · exact absurd (Or.inr h45) hns
    · intro he
      subst he
      exact hns (Or.inl (by decide))

/-- Witness for C10 at `Common-Cold`. -/
theorem C10_no_separators_in_output_witness :
    ¬('_' ∈ "common cold".toList) ∧ ¬('-' ∈ "common cold".toList) ∧
    ∀ c ∈ "common cold".toList, (isWordChar c || isPySpace c) = true ∧ c ≠ '_' :=
  C10_no_separators_in_output "Common-Cold".toList "common cold".toList (by decide)

/-! Claim theorems about the HTTP handlers. -/

/-- C7: validation failures never reach downstream collaborators — when
`validate_disease_name` rejects the raw disease string, both handlers
return that 400 error with an empty collaborator-call trace: no store
lookup and no summarizer call is performed. -/
theorem C7_validation_errors_stop_at_boundary :
    ∀ (st : Store) (gen : List Char → Except CohereError (List Generation))
      (d : List Char) (he : HTTPException),
      validate_disease_name d = .error he →
      he.status = 400 ∧
      get_remedies st d = (.error he, []) ∧
      generate_summary st gen d = (.error he, []) := by
  intro st gen d he h
  have hst : he.status = 400 := by
    rcases validate_error_elim h with rfl | rfl <;> rfl
  have hg : get_remedies st d = (.error he, []) := by
    simp [get_remedies, h]
  refine ⟨hst, hg, ?_⟩
  simp [generate_summary, hg]

/-- Witness for C7 at the invalid input `flu!!!`. -/
theorem C7_validation_errors_stop_at_boundary_witness :
    invalidCharactersExc.status = 400 ∧
    get_remedies emptyStore "flu!!!".toList = (.error invalidCharactersExc, []) ∧
    generate_summary emptyStore (fun _ => .ok []) "flu!!!".toList =
      (.error invalidCharactersExc, []) :=
  C7_validation_errors_stop_at_boundary emptyStore (fun _ => .ok [])
    "flu!!!".toList invalidCharactersExc (by decide)

/-- C8: when the disease name validates but the store returns no
matching disease record, `get_remedies` fails with the 404 not-found
error — it never returns a successful response with an empty payload. -/
theorem C8_absent_disease_not_found :
    ∀ (st : Store) (d clean : List Char),
      validate_disease_name d = .ok clean →
      st.diseasesByName clean = .ok [] →
      (get_remedies st d).1 = .error ⟨404, notFoundDetail clean⟩ := by
  intro st d clean hv hs
  simp [get_remedies, hv, hs]

/-- Witness for C8 at the empty store and input `flu`. -/
theorem C8_absent_disease_not_found_witness :
    (get_remedies emptyStore "flu".toList).1 =
      .error ⟨404, notFoundDetail "flu".toList⟩ :=
  C8_absent_disease_not_found emptyStore "flu".toList "flu".toList (by decide) rfl

/-- C9: for a summary request whose remedies lookup succeeds, a
summarizer error yields the 503 error, an empty generation list yields
the 500 empty-response error, and a non-empty generation list yields a
successful response carrying the first generation text. -/
theorem C9_summary_error_translation :
    ∀ (st : Store) (gen : List Char → Except CohereError (List Generation))
      (d : List Char) (rd : RemediesResponse),
      (get_remedies st d).1 = .ok rd →
      (∀ ce, gen (buildPrompt rd) = .error ce →
        (generate_summary st gen d).1 = .error ⟨503, cohereErrorDetail ce⟩) ∧
      (gen (buildPrompt rd) = .ok [] →
        (generate_summary st gen d).1 =
          .error ⟨500, "Empty response from Cohere API".toList⟩) ∧
      (∀ g gs, gen (buildPrompt rd) = .ok (g :: gs) →
        (generate_summary st gen d).1 = .ok ⟨g.text, rd⟩) := by
  intro st gen d rd h
  have hp : get_remedies st d = (.ok rd, (get_remedies st d).2) := by
    rw [← h]
  refine ⟨fun ce hce => ?_, fun hemp => ?_, fun g gs hg => ?_⟩
  · simp only [generate_summary]
    rw [hp]
    simp [hce]
  · simp only [generate_summary]
    rw [hp]
    simp [hemp]
  · simp only [generate_summary]
    rw [hp]
    simp [hg]

/-- Witness for C9: the three summarizer outcomes at a concrete store
and disease. -/
theorem C9_summary_error_translation_witness :
    (generate_summary oneDiseaseStore downSummarizer "Common_Cold".toList).1 =
      .error ⟨503, cohereErrorDetail ⟨"service unavailable".toList⟩⟩ ∧
    (generate_summary oneDiseaseStore emptySummarizer "Common_Cold".toList).1 =
      .error ⟨500, "Empty response from Cohere API".toList⟩ ∧
    (generate_summary oneDiseaseStore okSummarizer "Common_Cold".toList).1 =
      .ok ⟨"use ginger tea".toList, commonColdResponse⟩ :=
  ⟨(C9_summary_error_translation oneDiseaseStore downSummarizer
      "Common_Cold".toList commonColdResponse (by decide)).1
      ⟨"service unavailable".toList⟩ rfl,
   (C9_summary_error_translation oneDiseaseStore emptySummarizer
      "Common_Cold".toList commonColdResponse (by decide)).2.1 rfl,
   (C9_summary_error_translation oneDiseaseStore okSummarizer
      "Common_Cold".toList commonColdResponse (by decide)).2.2
      ⟨"use ginger tea".toList⟩ [] rfl⟩
